import Mathlib

/-!
Shallow embedding of the Unciv Telegram notifier core
(`src/unciv_notifier.py`): the conditional fetcher, the turn detector,
the reminder scheduler, the debounced error reporting, and the snapshot
save/load, together with theorems settling the specification claims.

Python module-level globals are gathered in one `BotState` record.
Python `dict`s become association lists (`lookupA` / `insertA` mirror
`dict.get` / in-place key assignment).  Timestamps are naturals (seconds);
an ISO timestamp string stored in the reminder dictionary is modelled by
`TimeField`: a parsable string carrying time `t`, an unparsable string
(`datetime.fromisoformat` raises `ValueError`), or a missing/non-string
value.  Raised Python exceptions escaping a function are the `.error`
branch of `Except`; exceptions caught inside a function are ordinary
control flow.  Outgoing `bot.send_message` calls and `save_state` calls
are recorded as an `Event` trace.
-/

namespace UncivNotifier

/-- Association-list lookup, mirroring Python `dict.get(k)`. -/
def lookupA {κ α : Type} [DecidableEq κ] (k : κ) : List (κ × α) → Option α
  | [] => none
  | (k', v) :: t => if k' = k then some v else lookupA k t

/-- Association-list update, mirroring Python `d[k] = v` (replace in place,
keep insertion order, append if absent). -/
def insertA {κ α : Type} [DecidableEq κ] (k : κ) (v : α) : List (κ × α) → List (κ × α)
  | [] => [(k, v)]
  | (k', v') :: t => if k' = k then (k, v) :: t else (k', v') :: insertA k v t

/-- A value stored under `last_reminded_time` / `last_turn_change_time` in
`PLAYER_NOTIFICATION_STATE`: a parsable ISO string denoting time `t`, an
unparsable string (`datetime.fromisoformat` raises), or missing/non-string. -/
inductive TimeField : Type
  | iso (t : Nat)
  | corrupt
  | absent
deriving DecidableEq, Repr

/-- One entry of `PLAYER_NOTIFICATION_STATE` (`unciv_notifier.py` lines
560-564): keys `last_turn_change_time`, `next_reminder_index`,
`last_reminded_time`. -/
structure ReminderEntry : Type where
  lastTurnChangeTime : TimeField
  nextReminderIndex : Nat
  lastRemindedTime : TimeField
deriving DecidableEq, Repr

/-- One element of the payload's `civilizations` array. -/
structure Civ : Type where
  civName : Option String
  playerType : String
deriving DecidableEq, Repr

/-- The remote game JSON fields the program reads: `currentPlayer`,
`currentTurnStartTime` (milliseconds; `none` models both absence and a
non-numeric value, matching the `isinstance` guard), `civilizations`. -/
structure GameJson : Type where
  currentPlayer : Option String
  currentTurnStartTime : Option Nat
  civilizations : List Civ
deriving DecidableEq, Repr

/-- The possible outcomes of the single HTTP GET inside `fetch_game_json`:
a 304, a 2xx with parsable JSON body (and optional ETag header), a 2xx
whose body fails to parse as JSON, a non-2xx status
(`resp.raise_for_status()`), an `asyncio.TimeoutError`, or an
`aiohttp.ClientError`. -/
inductive HttpResponse : Type
  | notModified
  | ok (etag : Option String) (body : GameJson)
  | okBadJson (etag : Option String)
  | httpError
  | timeout
  | clientError
deriving DecidableEq, Repr

/-- The exception classes that can escape `fetch_game_json`. -/
inductive FetchErr : Type
  | timeoutE
  | clientE
  | httpE
  | jsonE
deriving DecidableEq, Repr

/-- A normal return value of `fetch_game_json`: the `{"_not_modified": True}`
marker dict, or the parsed game JSON. -/
inductive FetchResult : Type
  | notModifiedR
  | freshR (body : GameJson)
deriving DecidableEq, Repr

/-- The module-level mutable globals of `unciv_notifier.py` (lines 56-70)
gathered into one record.  `lastErrorTimeByChat` is the volatile
`_last_error_time_by_chat` debounce dictionary. -/
structure BotState : Type where
  gameId : Option String
  currentGameUrl : Option String
  lastTurnPlayer : Option String
  mainChatId : Option Int
  notifyPaused : Bool
  availableNations : List String
  playerLogins : List (String × String)
  playerNotificationState : List (String × ReminderEntry)
  etagCache : List (String × String)
  botLanguage : String
  monitorInterval : Nat
  lastErrorTimeByChat : List (Int × Nat)
deriving DecidableEq, Repr

/-- Exactly the keys written by `save_state` (lines 216-224). -/
structure SavedPayload : Type where
  gameIdP : Option String
  currentGameUrlP : Option String
  mainChatIdP : Option Int
  playerLoginsP : List (String × String)
  lastTurnPlayerP : Option String
  botLanguageP : String
  monitorIntervalP : Nat
deriving DecidableEq, Repr

/-- Observable actions of a tick or command: a turn-change message, a
reminder message (with its schedule index and send time), a debounced
error message, or a `save_state` call with the payload it writes. -/
inductive Event : Type
  | turnChange (chat : Int) (nation : String) (login : Option String)
  | reminder (chat : Int) (key : String) (idx : Nat) (t : Nat)
  | errorMsg (chat : Int) (t : Nat)
  | saved (p : SavedPayload)
deriving DecidableEq, Repr

/-- An exception escaping `monitor_game_state` itself: the `ValueError`
raised by `datetime.fromisoformat` on a corrupt stored timestamp
(line 610), which is inside no try/except. -/
inductive TickErr : Type
  | corruptTimestamp
deriving DecidableEq, Repr

/-- `UNCIV_BASE_URL` default. -/
def BASE_URL : String := "https://uncivserver.xyz/jsons/"

/-- `REMINDER_SCHEDULE` (lines 45-49), in seconds: 10 min, 30 min, 1 hour. -/
def REMINDER_SCHEDULE : List Nat := [600, 1800, 3600]

/-- `REMINDER_SCHEDULE[idx]`; only evaluated under `idx < len` in the code. -/
def schedAt (i : Nat) : Nat := REMINDER_SCHEDULE.getD i 0

/-- `ERROR_DEBOUNCE_SECONDS = 300` (line 51). -/
def ERROR_DEBOUNCE_SECONDS : Nat := 300

/-- `str.upper()` modelled character-wise (the ASCII case map, which is
what both Python and the game's faction names exercise here). -/
def pyUpper (s : String) : String := ⟨s.data.map Char.toUpper⟩

/-- `normalize` (lines 255-256): `n.upper() if n else n`. -/
def normalize (n : Option String) : Option String :=
  match n with
  | none => none
  | some s => if s = "" then some s else some (pyUpper s)

/-- `get_raw_nation_name` (lines 258-259): first roster entry whose
upper-case form equals the normalized name, else the normalized name. -/
def get_raw_nation_name (nations : List String) (normalizedName : String) : String :=
  match nations.find? (fun n => pyUpper n = normalizedName) with
  | some n => n
  | none => normalizedName

/-- `[c.get('civName') for c in civs if c.get('playerType') == 'Human']`. -/
def humanCivNames (civs : List Civ) : List (Option String) :=
  (civs.filter (fun c => c.playerType = "Human")).map (fun c => c.civName)

/-- `[n for n in human_civs if n]` (truthy = present and nonempty). -/
def truthyNames (l : List (Option String)) : List String :=
  l.filterMap (fun o =>
    match o with
    | none => none
    | some s => if s = "" then none else some s)

/-- The fresh-start value of every global (module initialisation with no
state file): defaults from lines 58-70, language `"en"`, interval 60. -/
def initState : BotState :=
  { gameId := none
    currentGameUrl := none
    lastTurnPlayer := none
    mainChatId := none
    notifyPaused := false
    availableNations := []
    playerLogins := []
    playerNotificationState := []
    etagCache := []
    botLanguage := "en"
    monitorInterval := 60
    lastErrorTimeByChat := [] }

/-- `save_state` (lines 212-229): the payload written to the state file.
Note it contains neither `NOTIFY_PAUSED`, nor `AVAILABLE_NATIONS`, nor
`PLAYER_NOTIFICATION_STATE`, nor `_last_error_time_by_chat`. -/
def save_state (s : BotState) : SavedPayload :=
  { gameIdP := s.gameId
    currentGameUrlP := s.currentGameUrl
    mainChatIdP := s.mainChatId
    playerLoginsP := s.playerLogins
    lastTurnPlayerP := s.lastTurnPlayer
    botLanguageP := s.botLanguage
    monitorIntervalP := s.monitorInterval }

/-- `load_state` (lines 231-253): overwrite exactly the seven saved globals
of the running state `s` (on restart, `s` is `initState`). -/
def load_state (p : SavedPayload) (s : BotState) : BotState :=
  { s with
    gameId := p.gameIdP
    currentGameUrl := p.currentGameUrlP
    mainChatId := p.mainChatIdP
    playerLogins := p.playerLoginsP
    lastTurnPlayer := p.lastTurnPlayerP
    botLanguage := p.botLanguageP
    monitorInterval := p.monitorIntervalP }

/-- `fetch_game_json` (lines 264-285) as a function of the single HTTP
response: a 304 returns the not-modified marker; a 2xx stores a new ETag
(if any) in the cache and returns the body; a failing JSON parse raises
after the ETag was already cached; non-2xx, timeout and client errors
raise without touching the cache.  No retry: exactly one request. -/
def fetch_game_json (resp : HttpResponse) (cache : List (String × String))
    (url : String) : Except FetchErr FetchResult × List (String × String) :=
  match resp with
  | .notModified => (.ok .notModifiedR, cache)
  | .ok etag body =>
      let cache' := match etag with
        | some e => insertA url e cache
        | none => cache
      (.ok (.freshR body), cache')
  | .okBadJson etag =>
      let cache' := match etag with
        | some e => insertA url e cache
        | none => cache
      (.error .jsonE, cache')
  | .httpError => (.error .httpE, cache)
  | .timeout => (.error .timeoutE, cache)
  | .clientError => (.error .clientE, cache)

/-- `send_debounced_error` (lines 503-512): send only if at least
`ERROR_DEBOUNCE_SECONDS` have passed since the last send to this chat
(missing entry counts as 0), and record the send time. -/
def send_debounced_error (now : Nat) (chat : Int) (em : List (Int × Nat)) :
    List (Int × Nat) × List Event :=
  let last := (lookupA chat em).getD 0
  if last + ERROR_DEBOUNCE_SECONDS ≤ now then
    (insertA chat now em, [.errorMsg chat now])
  else (em, [])

/-- The reminder-dispatch step at the end of `monitor_game_state`
(lines 616-640), after `last_reminded` has been determined: if the index
is in range and the reminder is due, send it, stamp `last_reminded_time`
with now, advance the index, and save. -/
def reminder_fire (now : Nat) (chat : Int) (curNorm : String)
    (entry : ReminderEntry) (lastRem : Nat) (s : BotState) :
    BotState × List Event :=
  let idx := entry.nextReminderIndex
  if idx < REMINDER_SCHEDULE.length then
    if lastRem + schedAt idx ≤ now then
      let entry2 : ReminderEntry :=
        { entry with
          lastRemindedTime := .iso now
          nextReminderIndex := idx + 1 }
      let s2 := { s with
        playerNotificationState :=
          insertA curNorm entry2 s.playerNotificationState }
      (s2, [.reminder chat curNorm idx now, .saved (save_state s2)])
    else (s, [])
  else (s, [])

/-- `currentTurnStartTime` handling (lines 544-553): a present nonzero
numeric value (Python truthiness: 0 falls through) is milliseconds since
epoch, converted to seconds; otherwise the wall clock `now`. -/
def turn_time (now : Nat) (ms : Option Nat) : Nat :=
  match ms with
  | some m => if m = 0 then now else m / 1000
  | none => now

/-- `monitor_game_state` (lines 514-640), one tick: given the wall clock,
the HTTP response this tick's single fetch produces, and the globals,
return either the `ValueError` escaping on a corrupt stored timestamp, or
the new globals plus the trace of messages sent and snapshots saved. -/
def monitor_game_state (now : Nat) (resp : HttpResponse) (s : BotState) :
    Except TickErr (BotState × List Event) :=
  match s.currentGameUrl with
  | none => .ok (s, [])
  | some url =>
    if url = "" then .ok (s, []) else
    match fetch_game_json resp s.etagCache url with
    | (.error _, cache') =>
      let s1 := { s with etagCache := cache' }
      match s.mainChatId with
      | none => .ok (s1, [])
      | some chat =>
        if chat = 0 then .ok (s1, []) else
        let r := send_debounced_error now chat s.lastErrorTimeByChat
        .ok ({ s1 with lastErrorTimeByChat := r.1 }, r.2)
    | (.ok fr, cache') =>
      let s1 := { s with etagCache := cache' }
      let currentPlayerRaw : Option String :=
        match fr with
        | .notModifiedR => s1.lastTurnPlayer
        | .freshR body => body.currentPlayer
      match currentPlayerRaw with
      | none => .ok (s1, [])
      | some raw =>
        if raw = "" then .ok (s1, []) else
        let curNorm := pyUpper raw
        let msField : Option Nat :=
          match fr with
          | .notModifiedR => none
          | .freshR body => body.currentTurnStartTime
        let tTurn := turn_time now msField
        match s1.lastTurnPlayer with
        | none =>
          -- first observation (lines 556-579)
          let s2 := { s1 with
            lastTurnPlayer := some curNorm
            playerNotificationState := insertA curNorm
              { lastTurnChangeTime := .iso tTurn
                nextReminderIndex := 0
                lastRemindedTime := .iso tTurn } s1.playerNotificationState }
          let civs : List Civ :=
            match fr with
            | .notModifiedR => []
            | .freshR body => body.civilizations
          let hc := humanCivNames civs
          let s3 := if hc = [] then s2
            else { s2 with availableNations := truthyNames hc }
          .ok (s3, [.saved (save_state s3)])
        | some lastP =>
          if curNorm = lastP then
            -- unchanged turn holder: reminder scheduler (lines 605-640)
            match lookupA curNorm s1.playerNotificationState, s1.mainChatId with
            | some entry, some chat =>
              if chat = 0 then .ok (s1, []) else
              if s1.notifyPaused then .ok (s1, []) else
              (match entry.lastRemindedTime with
               | .corrupt => .error .corruptTimestamp
               | .iso t => .ok (reminder_fire now chat curNorm entry t s1)
               | .absent =>
                 let entry1 := { entry with lastRemindedTime := TimeField.iso now }
                 let sR := { s1 with
                   playerNotificationState :=
                     insertA curNorm entry1 s1.playerNotificationState }
                 .ok (reminder_fire now chat curNorm entry1 now sR))
            | _, _ => .ok (s1, [])
          else
            -- turn changed (lines 581-603)
            let s2 := { s1 with lastTurnPlayer := some curNorm }
            let login := lookupA curNorm s2.playerLogins
            let evs1 : List Event :=
              match s2.mainChatId with
              | some chat =>
                if chat = 0 then []
                else if s2.notifyPaused then []
                else [.turnChange chat raw login]
              | none => []
            let s3 := { s2 with
              playerNotificationState := insertA curNorm
                { lastTurnChangeTime := .iso tTurn
                  nextReminderIndex := 0
                  lastRemindedTime := .iso tTurn } s2.playerNotificationState }
            .ok (s3, evs1 ++ [.saved (save_state s3)])

/-- `set_game` (lines 300-355) restricted to its state effect: record the
invoking chat, fetch the new game's JSON; on any exception or a 304 reply
a failure and change nothing else; on fresh data clear subscriptions,
reminder state, roster and last player, install the new id and URL,
compute the human roster wholesale, and save. -/
def set_game (chat : Int) (newGameId : String) (resp : HttpResponse)
    (s0 : BotState) : BotState × List Event :=
  let s := { s0 with mainChatId := some chat }
  let url := BASE_URL ++ newGameId
  match fetch_game_json resp s.etagCache url with
  | (.error _, cache') => ({ s with etagCache := cache' }, [])
  | (.ok .notModifiedR, cache') => ({ s with etagCache := cache' }, [])
  | (.ok (.freshR body), cache') =>
    let s1 := { s with
      etagCache := cache'
      playerLogins := []
      playerNotificationState := []
      availableNations := []
      lastTurnPlayer := none
      gameId := some newGameId
      currentGameUrl := some url }
    let s2 := { s1 with
      availableNations := truthyNames (humanCivNames body.civilizations) }
    (s2, [.saved (save_state s2)])

/-- `pause_notifications` (lines 442-467): toggle the flag; when resuming
with a remembered turn holder, reset that holder's reminder entry to
index 0 with both timestamps the current time; always save. -/
def pause_notifications (now : Nat) (s : BotState) : BotState × List Event :=
  let before := s.notifyPaused
  let s1 := { s with notifyPaused := !before }
  let s2 :=
    if s1.notifyPaused then s1
    else
      match s1.lastTurnPlayer with
      | some p =>
        if before then
          { s1 with
            playerNotificationState := insertA p
              { lastTurnChangeTime := .iso now
                nextReminderIndex := 0
                lastRemindedTime := .iso now } s1.playerNotificationState }
        else s1
      | none => s1
  (s2, [.saved (save_state s2)])

/-- Run a sequence of monitor ticks, each given as (wall clock, response),
threading the state and concatenating the event traces; an escaping
exception aborts the run. -/
def runTicks (ticks : List (Nat × HttpResponse)) (s : BotState) :
    Except TickErr (BotState × List Event) :=
  match ticks with
  | [] => .ok (s, [])
  | (t, r) :: rest =>
    match monitor_game_state t r s with
    | .error e => .error e
    | .ok (s', evs) =>
      match runTicks rest s' with
      | .error e => .error e
      | .ok (s'', evs') => .ok (s'', evs ++ evs')

/-- Project the (index, send time) pairs of reminder messages out of a trace. -/
def reminderIdxTimes (evs : List Event) : List (Nat × Nat) :=
  evs.filterMap (fun e =>
    match e with
    | .reminder _ _ i t => some (i, t)
    | _ => none)

/-- Project the send times of error messages out of a trace. -/
def errorTimes (evs : List Event) : List Nat :=
  evs.filterMap (fun e =>
    match e with
    | .errorMsg _ t => some t
    | _ => none)

/-- The reminder scheduler recurrence on its own: walking the tick clock
list, fire index `i` at the first tick whose time is at least
`lastRem + schedAt i`, then restart the delay from the firing time. -/
def simSched (times : List Nat) (lastRem : Nat) (i : Nat) : List (Nat × Nat) :=
  match times with
  | [] => []
  | t :: ts =>
    if i < REMINDER_SCHEDULE.length ∧ lastRem + schedAt i ≤ t then
      (i, t) :: simSched ts t (i + 1)
    else simSched ts lastRem i

/-- The error debouncer recurrence on its own: walking the failing-tick
clock list, send at a tick iff the debounce window has elapsed since the
last send (`last` initially the recorded last send time, 0 if none). -/
def simDebounce (times : List Nat) (last : Nat) : List Nat :=
  match times with
  | [] => []
  | t :: ts =>
    if last + ERROR_DEBOUNCE_SECONDS ≤ t then t :: simDebounce ts t
    else simDebounce ts last

/-- The event trace of a run, `none` if an exception escaped a tick. -/
def runEvents (ticks : List (Nat × HttpResponse)) (s : BotState) :
    Option (List Event) :=
  match runTicks ticks s with
  | .error _ => none
  | .ok (_, evs) => some evs

/-- The invariant holding between ticks of one monitored turn: the game
URL, turn holder, main chat and pause flag are set as given, and the
holder's reminder entry carries index `i` with a parsable last-reminded
time `lr`. -/
def MidTurn (url P : String) (chat : Int) (s : BotState) (tf : TimeField)
    (i lr : Nat) : Prop :=
  s.currentGameUrl = some url ∧ url ≠ "" ∧ s.lastTurnPlayer = some P ∧
  s.mainChatId = some chat ∧ chat ≠ 0 ∧ s.notifyPaused = false ∧
  lookupA P s.playerNotificationState = some ⟨tf, i, TimeField.iso lr⟩

/-- A fresh payload naming Rome as active player, with a two-nation human
roster. -/
def romeBody : GameJson :=
  ⟨some "Rome", none, [⟨some "Rome", "Human"⟩, ⟨some "Egypt", "Human"⟩]⟩

/-- A fresh payload naming Egypt as active player, with Egypt as the only
human faction. -/
def egyptBody : GameJson :=
  ⟨some "Egypt", none, [⟨some "Egypt", "Human"⟩]⟩

/-- A monitoring session with a game URL and main chat configured. -/
def baseMonState : BotState :=
  { initState with currentGameUrl := some "u", mainChatId := some 7 }

/-- `baseMonState` mid-turn with holder ROME and the given reminder entry. -/
def midTurnState (e : ReminderEntry) : BotState :=
  { baseMonState with
    lastTurnPlayer := some "ROME"
    availableNations := ["Rome"]
    playerNotificationState := [("ROME", e)] }

theorem lookupA_insertA_self {κ α : Type} [DecidableEq κ] (k : κ) (v : α)
    (l : List (κ × α)) : lookupA k (insertA k v l) = some v := by
  induction l with
  | nil => simp [insertA, lookupA]
  | cons hd t ih =>
    obtain ⟨k', v'⟩ := hd
    by_cases hk : k' = k
    · subst hk; simp [insertA, lookupA]
    · simp [insertA, lookupA, hk, ih]

/-- Shared: on a tick whose fetch raises, the only effect is the debounce
map update and at most one error message. -/
theorem monitor_on_fetch_error (now : Nat) (resp : HttpResponse) (s : BotState)
    (e : FetchErr)
    (hf : ∀ cache url, fetch_game_json resp cache url = (Except.error e, cache)) :
    ∃ em' evs,
      monitor_game_state now resp s =
        Except.ok ({ s with lastErrorTimeByChat := em' }, evs) ∧
      evs.length ≤ 1 ∧ ∀ ev ∈ evs, ∃ c t, ev = Event.errorMsg c t := by
  obtain ⟨g, cg, ltp, mc, np, an, pl, pns, ec, bl, mi, em⟩ := s
  cases cg with
  | none => exact ⟨em, [], by simp [monitor_game_state], by simp, by simp⟩
  | some url =>
    by_cases hu : url = ""
    · subst hu
      exact ⟨em, [], by simp [monitor_game_state], by simp, by simp⟩
    · cases mc with
      | none =>
        exact ⟨em, [], by simp [monitor_game_state, hu, hf], by simp, by simp⟩
      | some chat =>
        by_cases hc0 : chat = 0
        · subst hc0
          exact ⟨em, [], by simp [monitor_game_state, hu, hf], by simp, by simp⟩
        · by_cases hdb :
            (lookupA chat em).getD 0 + ERROR_DEBOUNCE_SECONDS ≤ now
          · refine ⟨insertA chat now em,
              [Event.errorMsg chat now], ?_, by simp, ?_⟩
            · simp [monitor_game_state, hu, hf, hc0, send_debounced_error, hdb]
            · intro ev hev
              simp at hev
              exact ⟨chat, now, hev⟩
          · refine ⟨em, [], ?_, by simp, by simp⟩
            simp [monitor_game_state, hu, hf, hc0, send_debounced_error, hdb]

/-- C5 counterexample input: paused, with a roster and live reminder state. -/
def c5State : BotState :=
  { baseMonState with
    gameId := some "g1"
    notifyPaused := true
    availableNations := ["Rome"]
    playerNotificationState := [("ROME", ⟨TimeField.iso 5, 1, TimeField.iso 9⟩)] }

/-- C5: FALSE as stated.  The pause flag, the roster and the reminder state
are not in the snapshot: after save then load into a fresh process they
come back as `false`, `[]`, `[]` rather than their saved-time values. -/
theorem snapshot_roundtrip_loses_pause_roster_reminders :
    c5State.notifyPaused = true ∧
    (load_state (save_state c5State) initState).notifyPaused = false ∧
    c5State.availableNations = ["Rome"] ∧
    (load_state (save_state c5State) initState).availableNations = [] ∧
    c5State.playerNotificationState ≠ [] ∧
    (load_state (save_state c5State) initState).playerNotificationState = [] := by
  refine ⟨rfl, rfl, rfl, rfl, ?_, rfl⟩
  decide

/-- C5 (amended): save followed by load into a fresh process restores
exactly the seven persisted globals — game id, game URL, main chat,
subscriptions, last turn player, language, interval — and resets
everything else (pause flag, roster, reminder state, ETag cache, error
debounce map) to its fresh-start value. -/
theorem snapshot_roundtrip_persisted_fields (s : BotState) :
    load_state (save_state s) initState =
      { initState with
        gameId := s.gameId
        currentGameUrl := s.currentGameUrl
        mainChatId := s.mainChatId
        playerLogins := s.playerLogins
        lastTurnPlayer := s.lastTurnPlayer
        botLanguage := s.botLanguage
        monitorInterval := s.monitorInterval } := rfl

/-- C2: a transient fetch failure (timeout or transport error) leaves every
global except the volatile debounce map exactly as it was — in particular
the turn state, the reminder state and the roster — and the tick emits at
most one error message, nothing else, and saves nothing. -/
theorem transient_failure_tick_is_readonly (now : Nat) (resp : HttpResponse)
    (s : BotState) (h : resp = HttpResponse.timeout ∨ resp = HttpResponse.clientError) :
    ∃ em' evs,
      monitor_game_state now resp s =
        Except.ok ({ s with lastErrorTimeByChat := em' }, evs) ∧
      ({ s with lastErrorTimeByChat := em' } : BotState).lastTurnPlayer =
        s.lastTurnPlayer ∧
      ({ s with lastErrorTimeByChat := em' } : BotState).playerNotificationState =
        s.playerNotificationState ∧
      ({ s with lastErrorTimeByChat := em' } : BotState).availableNations =
        s.availableNations ∧
      evs.length ≤ 1 ∧ ∀ ev ∈ evs, ∃ c t, ev = Event.errorMsg c t := by
  have hf : ∃ e, ∀ cache url,
      fetch_game_json resp cache url = (Except.error e, cache) := by
    rcases h with h | h <;> subst h
    · exact ⟨FetchErr.timeoutE, fun _ _ => rfl⟩
    · exact ⟨FetchErr.clientE, fun _ _ => rfl⟩
  obtain ⟨e, hf⟩ := hf
  obtain ⟨em', evs, hm, hlen, herr⟩ := monitor_on_fetch_error now resp s e hf
  exact ⟨em', evs, hm, rfl, rfl, rfl, hlen, herr⟩

theorem transient_failure_tick_is_readonly_witness :
    ((HttpResponse.timeout = HttpResponse.timeout ∨
      HttpResponse.timeout = HttpResponse.clientError) ∧
     ∃ em' evs,
      monitor_game_state 700 HttpResponse.timeout baseMonState =
        Except.ok ({ baseMonState with lastErrorTimeByChat := em' }, evs) ∧
      ({ baseMonState with lastErrorTimeByChat := em' } : BotState).lastTurnPlayer =
        baseMonState.lastTurnPlayer ∧
      ({ baseMonState with lastErrorTimeByChat := em' } : BotState).playerNotificationState =
        baseMonState.playerNotificationState ∧
      ({ baseMonState with lastErrorTimeByChat := em' } : BotState).availableNations =
        baseMonState.availableNations ∧
      evs.length ≤ 1 ∧ ∀ ev ∈ evs, ∃ c t, ev = Event.errorMsg c t) :=
  ⟨Or.inl rfl,
   transient_failure_tick_is_readonly 700 HttpResponse.timeout baseMonState (Or.inl rfl)⟩

/-- C4: a timeout or transport-level error makes the single-request fetcher
yield its failure outcome (the raised exception, typed) with the ETag
cache untouched — it performs no retry — and the monitor tick consuming
that outcome always returns normally (degrades gracefully) with the core
state intact rather than letting the failure become fatal. -/
theorem fetch_transient_outcome (resp : HttpResponse)
    (cache : List (String × String)) (url : String) (now : Nat) (s : BotState)
    (h : resp = HttpResponse.timeout ∨ resp = HttpResponse.clientError) :
    ((fetch_game_json resp cache url).1 = Except.error FetchErr.timeoutE ∨
     (fetch_game_json resp cache url).1 = Except.error FetchErr.clientE) ∧
    (fetch_game_json resp cache url).2 = cache ∧
    ∃ em' evs,
      monitor_game_state now resp s =
        Except.ok ({ s with lastErrorTimeByChat := em' }, evs) := by
  have hf : ∃ e, ∀ cache url,
      fetch_game_json resp cache url = (Except.error e, cache) := by
    rcases h with h | h <;> subst h
    · exact ⟨FetchErr.timeoutE, fun _ _ => rfl⟩
    · exact ⟨FetchErr.clientE, fun _ _ => rfl⟩
  obtain ⟨e, hf⟩ := hf
  obtain ⟨em', evs, hm, _, _⟩ := monitor_on_fetch_error now resp s e hf
  refine ⟨?_, by rw [hf], em', evs, hm⟩
  rcases h with h | h <;> subst h
  · exact Or.inl rfl
  · exact Or.inr rfl

theorem fetch_transient_outcome_witness :
    ((HttpResponse.clientError = HttpResponse.timeout ∨
      HttpResponse.clientError = HttpResponse.clientError) ∧
     (((fetch_game_json HttpResponse.clientError [] "u").1 =
         Except.error FetchErr.timeoutE ∨
       (fetch_game_json HttpResponse.clientError [] "u").1 =
         Except.error FetchErr.clientE) ∧
      (fetch_game_json HttpResponse.clientError [] "u").2 = [] ∧
      ∃ em' evs,
        monitor_game_state 50 HttpResponse.clientError baseMonState =
          Except.ok ({ baseMonState with lastErrorTimeByChat := em' }, evs))) :=
  ⟨Or.inr rfl,
   fetch_transient_outcome HttpResponse.clientError [] "u" 50 baseMonState (Or.inr rfl)⟩

/-- C8: toggling pause off while a turn holder is remembered resets that
holder's reminder entry to index 0 with both timestamps the current time,
and saves. -/
theorem resume_rearms_reminders (now : Nat) (s : BotState) (P : String)
    (hp : s.notifyPaused = true) (hl : s.lastTurnPlayer = some P) :
    ∃ s', pause_notifications now s = (s', [Event.saved (save_state s')]) ∧
      s'.notifyPaused = false ∧
      s'.lastTurnPlayer = some P ∧
      lookupA P s'.playerNotificationState =
        some ⟨TimeField.iso now, 0, TimeField.iso now⟩ := by
  obtain ⟨g, cg, ltp, mc, np, an, pl, pns, ec, bl, mi, em⟩ := s
  simp only at hp hl
  subst hp hl
  refine ⟨{ gameId := g
            currentGameUrl := cg
            lastTurnPlayer := some P
            mainChatId := mc
            notifyPaused := false
            availableNations := an
            playerLogins := pl
            playerNotificationState :=
              insertA P ⟨TimeField.iso now, 0, TimeField.iso now⟩ pns
            etagCache := ec
            botLanguage := bl
            monitorInterval := mi
            lastErrorTimeByChat := em },
          ?_, rfl, rfl, lookupA_insertA_self ..⟩
  simp [pause_notifications, save_state]

theorem resume_rearms_reminders_witness :
    ((midTurnState ⟨TimeField.iso 0, 2, TimeField.iso 900⟩ : BotState).notifyPaused = true ∨ True) ∧
    ∃ s', pause_notifications 1234
        { midTurnState ⟨TimeField.iso 0, 2, TimeField.iso 900⟩ with notifyPaused := true } =
        (s', [Event.saved (save_state s')]) ∧
      s'.notifyPaused = false ∧
      s'.lastTurnPlayer = some "ROME" ∧
      lookupA "ROME" s'.playerNotificationState =
        some ⟨TimeField.iso 1234, 0, TimeField.iso 1234⟩ :=
  ⟨Or.inr trivial,
   resume_rearms_reminders 1234
     { midTurnState ⟨TimeField.iso 0, 2, TimeField.iso 900⟩ with notifyPaused := true }
     "ROME" rfl rfl⟩

theorem schedAt_pos (i : Nat) (hi : i < REMINDER_SCHEDULE.length) : 0 < schedAt i := by
  simp only [REMINDER_SCHEDULE, List.length_cons, List.length_nil] at hi
  interval_cases i <;> decide

/-- C3: a tick whose fresh payload names a different active player updates
the last-turn player, re-initializes the new holder's reminder entry to
index 0 with both timestamps equal to the payload's turn-start time (or
now when absent), emits one turn-change message unless paused, and saves
— whatever the previous holder's reminder progress was. -/
theorem turn_change_reinitializes (now : Nat) (s : BotState)
    (url raw lastP : String) (chat : Int) (etag : Option String) (body : GameJson)
    (hurl : s.currentGameUrl = some url) (hune : url ≠ "")
    (hlp : s.lastTurnPlayer = some lastP)
    (hchat : s.mainChatId = some chat) (hc0 : chat ≠ 0)
    (hcp : body.currentPlayer = some raw) (hrne : raw ≠ "")
    (hdiff : pyUpper raw ≠ lastP) :
    ∃ s',
      monitor_game_state now (HttpResponse.ok etag body) s =
        Except.ok (s',
          (if s.notifyPaused then []
           else [Event.turnChange chat raw (lookupA (pyUpper raw) s.playerLogins)]) ++
          [Event.saved (save_state s')]) ∧
      s'.lastTurnPlayer = some (pyUpper raw) ∧
      lookupA (pyUpper raw) s'.playerNotificationState =
        some ⟨TimeField.iso (turn_time now body.currentTurnStartTime), 0,
              TimeField.iso (turn_time now body.currentTurnStartTime)⟩ ∧
      s'.availableNations = s.availableNations ∧
      s'.playerLogins = s.playerLogins ∧
      s'.notifyPaused = s.notifyPaused := by
  obtain ⟨g, cg, ltp, mc, np, an, pl, pns, ec, bl, mi, em⟩ := s
  obtain ⟨cp, ts, civs⟩ := body
  simp only at hurl hlp hchat hcp
  subst hurl hlp hchat hcp
  cases etag with
  | none =>
    refine ⟨⟨g, some url, some (pyUpper raw), some chat, np, an, pl,
      insertA (pyUpper raw)
        ⟨TimeField.iso (turn_time now ts), 0, TimeField.iso (turn_time now ts)⟩ pns,
      ec, bl, mi, em⟩,
      ?_, rfl, lookupA_insertA_self .., rfl, rfl, rfl⟩
    simp [monitor_game_state, fetch_game_json, hune, hrne, hdiff, hc0]
  | some e =>
    refine ⟨⟨g, some url, some (pyUpper raw), some chat, np, an, pl,
      insertA (pyUpper raw)
        ⟨TimeField.iso (turn_time now ts), 0, TimeField.iso (turn_time now ts)⟩ pns,
      insertA url e ec, bl, mi, em⟩,
      ?_, rfl, lookupA_insertA_self .., rfl, rfl, rfl⟩
    simp [monitor_game_state, fetch_game_json, hune, hrne, hdiff, hc0]

theorem turn_change_reinitializes_witness :
    ∃ s',
      monitor_game_state 50 (HttpResponse.ok none egyptBody)
          (midTurnState ⟨TimeField.iso 0, 2, TimeField.iso 40⟩) =
        Except.ok (s',
          (if (midTurnState ⟨TimeField.iso 0, 2, TimeField.iso 40⟩ : BotState).notifyPaused then []
           else [Event.turnChange 7 "Egypt"
             (lookupA (pyUpper "Egypt")
               (midTurnState ⟨TimeField.iso 0, 2, TimeField.iso 40⟩ : BotState).playerLogins)]) ++
          [Event.saved (save_state s')]) ∧
      s'.lastTurnPlayer = some (pyUpper "Egypt") ∧
      lookupA (pyUpper "Egypt") s'.playerNotificationState =
        some ⟨TimeField.iso (turn_time 50 egyptBody.currentTurnStartTime), 0,
              TimeField.iso (turn_time 50 egyptBody.currentTurnStartTime)⟩ ∧
      s'.availableNations =
        (midTurnState ⟨TimeField.iso 0, 2, TimeField.iso 40⟩ : BotState).availableNations ∧
      s'.playerLogins =
        (midTurnState ⟨TimeField.iso 0, 2, TimeField.iso 40⟩ : BotState).playerLogins ∧
      s'.notifyPaused =
        (midTurnState ⟨TimeField.iso 0, 2, TimeField.iso 40⟩ : BotState).notifyPaused :=
  turn_change_reinitializes 50 (midTurnState ⟨TimeField.iso 0, 2, TimeField.iso 40⟩)
    "u" "Egypt" "ROME" 7 none egyptBody rfl (by decide) rfl rfl (by decide) rfl
    (by decide) (by decide)

/-- C9 (amended): on an unchanged-holder tick, a missing/non-string stored
`last_reminded_time` is repaired to the current time in memory and the
tick completes with no message and no save (the repair is not persisted —
reminder timers are not part of the snapshot at all); but an unparsable
string makes the tick abort with the `fromisoformat` error instead of
being repaired. -/
theorem missing_timestamp_repaired_in_memory (now : Nat) (s sc : BotState)
    (url raw P : String) (chat : Int) (body : GameJson) (tf tfc : TimeField)
    (i ic : Nat)
    (hurl : s.currentGameUrl = some url) (hune : url ≠ "")
    (hlp : s.lastTurnPlayer = some P)
    (hchat : s.mainChatId = some chat) (hc0 : chat ≠ 0)
    (hnp : s.notifyPaused = false)
    (hentry : lookupA P s.playerNotificationState = some ⟨tf, i, TimeField.absent⟩)
    (hcp : body.currentPlayer = some raw) (hrne : raw ≠ "") (hup : pyUpper raw = P)
    (hcurl : sc.currentGameUrl = some url) (hclp : sc.lastTurnPlayer = some P)
    (hcchat : sc.mainChatId = some chat) (hcnp : sc.notifyPaused = false)
    (hcentry : lookupA P sc.playerNotificationState =
      some ⟨tfc, ic, TimeField.corrupt⟩) :
    (∃ s', monitor_game_state now (HttpResponse.ok none body) s =
        Except.ok (s', []) ∧
      lookupA P s'.playerNotificationState = some ⟨tf, i, TimeField.iso now⟩) ∧
    monitor_game_state now (HttpResponse.ok none body) sc =
      Except.error TickErr.corruptTimestamp := by
  constructor
  · obtain ⟨g, cg, ltp, mc, np, an, pl, pns, ec, bl, mi, em⟩ := s
    obtain ⟨cp, ts, civs⟩ := body
    simp only at hurl hlp hchat hnp hentry hcp
    subst hurl hlp hchat hnp hcp
    have hnofire : ¬ (i < REMINDER_SCHEDULE.length ∧ now + schedAt i ≤ now) := by
      rintro ⟨hi, hle⟩
      have := schedAt_pos i hi
      omega
    refine ⟨⟨g, some url, some P, some chat, false, an, pl,
      insertA P ⟨tf, i, TimeField.iso now⟩ pns, ec, bl, mi, em⟩,
      ?_, lookupA_insertA_self ..⟩
    by_cases hi : i < REMINDER_SCHEDULE.length
    · have hle : ¬ (now + schedAt i ≤ now) := fun h => hnofire ⟨hi, h⟩
      simp [monitor_game_state, fetch_game_json, hune, hrne, hup, hentry, hc0,
        reminder_fire, hi, hle]
    · simp [monitor_game_state, fetch_game_json, hune, hrne, hup, hentry, hc0,
        reminder_fire, hi]
  · obtain ⟨g, cg, ltp, mc, np, an, pl, pns, ec, bl, mi, em⟩ := sc
    obtain ⟨cp, ts, civs⟩ := body
    simp only at hcurl hclp hcchat hcnp hcentry hcp
    subst hcurl hclp hcchat hcnp hcp
    simp [monitor_game_state, fetch_game_json, hune, hrne, hup, hcentry, hc0]

/-- C9 is FALSE as stated: at a concrete mid-turn state whose stored
`last_reminded_time` is a corrupt string, the tick fails with the
`fromisoformat` error rather than treating it as now; and at one where it
is missing, the repair happens in memory but the tick performs no save
(empty trace), so nothing is persisted immediately. -/
theorem corrupt_timestamp_fails_tick :
    monitor_game_state 1000 (HttpResponse.ok none romeBody)
        (midTurnState ⟨TimeField.iso 100, 0, TimeField.corrupt⟩) =
      Except.error TickErr.corruptTimestamp ∧
    (∃ s', monitor_game_state 1000 (HttpResponse.ok none romeBody)
          (midTurnState ⟨TimeField.iso 100, 0, TimeField.absent⟩) =
        Except.ok (s', []) ∧
      lookupA "ROME" s'.playerNotificationState =
        some ⟨TimeField.iso 100, 0, TimeField.iso 1000⟩) := by
  exact ⟨rfl, ⟨_, rfl, rfl⟩⟩

theorem missing_timestamp_repaired_in_memory_witness :
    (∃ s', monitor_game_state 1000 (HttpResponse.ok none romeBody)
          (midTurnState ⟨TimeField.iso 100, 2, TimeField.absent⟩) =
        Except.ok (s', []) ∧
      lookupA "ROME" s'.playerNotificationState =
        some ⟨TimeField.iso 100, 2, TimeField.iso 1000⟩) ∧
    monitor_game_state 1000 (HttpResponse.ok none romeBody)
        (midTurnState ⟨TimeField.iso 100, 1, TimeField.corrupt⟩) =
      Except.error TickErr.corruptTimestamp :=
  missing_timestamp_repaired_in_memory 1000
    (midTurnState ⟨TimeField.iso 100, 2, TimeField.absent⟩)
    (midTurnState ⟨TimeField.iso 100, 1, TimeField.corrupt⟩)
    "u" "Rome" "ROME" 7 romeBody (TimeField.iso 100) (TimeField.iso 100) 2 1
    rfl (by decide) rfl rfl (by decide) rfl rfl rfl (by decide) (by decide)
    rfl rfl rfl rfl rfl

theorem reminder_fire_roster (now : Nat) (chat : Int) (k : String)
    (e : ReminderEntry) (lr : Nat) (s : BotState) :
    (reminder_fire now chat k e lr s).1.availableNations = s.availableNations := by
  simp only [reminder_fire]
  split_ifs <;> rfl

/-- Shared: once a last turn player is remembered, no monitor tick ever
touches the roster (the refresh only happens in the first-observation
branch). -/
theorem monitor_roster_mid_turn (now : Nat) (resp : HttpResponse) (s : BotState)
    (P : String) (hlp : s.lastTurnPlayer = some P) :
    ∀ r, monitor_game_state now resp s = Except.ok r →
      r.1.availableNations = s.availableNations := by
  intro r h
  obtain ⟨g, cg, ltp, mc, np, an, pl, pns, ec, bl, mi, em⟩ := s
  simp only at hlp
  subst hlp
  obtain ⟨r1, r2⟩ := r
  simp only [monitor_game_state, fetch_game_json, reminder_fire] at h
  repeat' split at h
  all_goals try exact Except.noConfusion h
  all_goals simp only [Except.ok.injEq, Prod.mk.injEq] at h
  all_goals obtain ⟨h1, h2⟩ := h
  all_goals subst h1
  all_goals rfl

/-- C6 (amended): the roster is replaced wholesale (never merged) by the
set-game command (always, with the payload's truthy human names) and by
the first-observation tick (when the payload's human list is nonempty);
once a turn holder is remembered, no monitor tick touches the roster,
fresh payload or not; and looking up a key absent from the roster falls
back to the key itself rather than erroring. -/
theorem roster_refresh_policy (chat : Int) (gid : String) (etag : Option String)
    (body : GameJson) (s1 s2 s3 : BotState) (now : Nat) (resp : HttpResponse)
    (url raw P key : String) (nations : List String)
    (h2url : s2.currentGameUrl = some url) (h2une : url ≠ "")
    (h2lp : s2.lastTurnPlayer = none)
    (h2cp : body.currentPlayer = some raw) (h2rne : raw ≠ "")
    (h2hc : humanCivNames body.civilizations ≠ [])
    (h3lp : s3.lastTurnPlayer = some P)
    (hkey : ∀ n ∈ nations, pyUpper n ≠ key) :
    (set_game chat gid (HttpResponse.ok etag body) s1).1.availableNations =
      truthyNames (humanCivNames body.civilizations) ∧
    (∃ s' evs, monitor_game_state now (HttpResponse.ok etag body) s2 =
        Except.ok (s', evs) ∧
      s'.availableNations = truthyNames (humanCivNames body.civilizations)) ∧
    (∀ r, monitor_game_state now resp s3 = Except.ok r →
      r.1.availableNations = s3.availableNations) ∧
    get_raw_nation_name nations key = key := by
  refine ⟨rfl, ?_, monitor_roster_mid_turn now resp s3 P h3lp, ?_⟩
  · obtain ⟨g, cg, ltp, mc, np, an, pl, pns, ec, bl, mi, em⟩ := s2
    obtain ⟨cp, ts, civs⟩ := body
    simp only at h2url h2lp h2cp h2hc
    subst h2url h2lp h2cp
    cases etag with
    | none =>
      refine ⟨⟨g, some url, some (pyUpper raw), mc, np,
        truthyNames (humanCivNames civs), pl,
        insertA (pyUpper raw)
          ⟨TimeField.iso (turn_time now ts), 0, TimeField.iso (turn_time now ts)⟩ pns,
        ec, bl, mi, em⟩,
        [Event.saved (save_state
          ⟨g, some url, some (pyUpper raw), mc, np,
           truthyNames (humanCivNames civs), pl,
           insertA (pyUpper raw)
             ⟨TimeField.iso (turn_time now ts), 0, TimeField.iso (turn_time now ts)⟩ pns,
           ec, bl, mi, em⟩)], ?_, rfl⟩
      simp [monitor_game_state, fetch_game_json, h2une, h2rne, h2hc]
    | some e =>
      refine ⟨⟨g, some url, some (pyUpper raw), mc, np,
        truthyNames (humanCivNames civs), pl,
        insertA (pyUpper raw)
          ⟨TimeField.iso (turn_time now ts), 0, TimeField.iso (turn_time now ts)⟩ pns,
        insertA url e ec, bl, mi, em⟩,
        [Event.saved (save_state
          ⟨g, some url, some (pyUpper raw), mc, np,
           truthyNames (humanCivNames civs), pl,
           insertA (pyUpper raw)
             ⟨TimeField.iso (turn_time now ts), 0, TimeField.iso (turn_time now ts)⟩ pns,
           insertA url e ec, bl, mi, em⟩)], ?_, rfl⟩
      simp [monitor_game_state, fetch_game_json, h2une, h2rne, h2hc]
  · have hfind : nations.find? (fun n => pyUpper n = key) = none := by
      rw [List.find?_eq_none]
      intro x hx
      simp [hkey x hx]
    simp [get_raw_nation_name, hfind]

/-- C6 is FALSE as stated: a concrete mid-turn tick whose fresh payload
carries the human roster Egypt (and names Egypt as active player) leaves
the stored roster at Rome — the payload's roster is not installed. -/
theorem fresh_roster_not_replaced_mid_turn :
    truthyNames (humanCivNames egyptBody.civilizations) = ["Egypt"] ∧
    (∃ s' evs, monitor_game_state 50 (HttpResponse.ok none egyptBody)
          (midTurnState ⟨TimeField.iso 0, 0, TimeField.iso 0⟩) =
        Except.ok (s', evs) ∧ s'.availableNations = ["Rome"]) ∧
    (["Rome"] : List String) ≠ ["Egypt"] := by
  exact ⟨rfl, ⟨_, _, rfl, rfl⟩, by decide⟩

theorem roster_refresh_policy_witness :
    (set_game 7 "gid" (HttpResponse.ok none egyptBody) initState).1.availableNations =
      truthyNames (humanCivNames egyptBody.civilizations) ∧
    (∃ s' evs, monitor_game_state 50 (HttpResponse.ok none egyptBody) baseMonState =
        Except.ok (s', evs) ∧
      s'.availableNations = truthyNames (humanCivNames egyptBody.civilizations)) ∧
    (∀ r, monitor_game_state 50 (HttpResponse.ok none egyptBody)
          (midTurnState ⟨TimeField.iso 0, 0, TimeField.iso 0⟩) = Except.ok r →
      r.1.availableNations =
        (midTurnState ⟨TimeField.iso 0, 0, TimeField.iso 0⟩ : BotState).availableNations) ∧
    get_raw_nation_name ["Rome"] "BABYLON" = "BABYLON" :=
  roster_refresh_policy 7 "gid" none egyptBody initState baseMonState
    (midTurnState ⟨TimeField.iso 0, 0, TimeField.iso 0⟩) 50
    (HttpResponse.ok none egyptBody) "u" "Egypt" "ROME" "BABYLON" ["Rome"]
    rfl (by decide) rfl rfl (by decide) (by decide) rfl (by decide)

/-- Shared: one unchanged-holder tick performs exactly one reminder
scheduler step: fire index `i` iff it is in range and
`lastRemindedAt + schedule[i] ≤ now`, then stamp and advance. -/
theorem monitor_unchanged_tick (now : Nat) (url P raw : String) (chat : Int)
    (body : GameJson) (tf : TimeField) (i lr : Nat) (s : BotState)
    (hmt : MidTurn url P chat s tf i lr)
    (hcp : body.currentPlayer = some raw) (hrne : raw ≠ "") (hup : pyUpper raw = P) :
    ∃ s',
      monitor_game_state now (HttpResponse.ok none body) s =
        Except.ok (s',
          if i < REMINDER_SCHEDULE.length ∧ lr + schedAt i ≤ now then
            [Event.reminder chat P i now, Event.saved (save_state s')]
          else []) ∧
      MidTurn url P chat s' tf
        (if i < REMINDER_SCHEDULE.length ∧ lr + schedAt i ≤ now then i + 1 else i)
        (if i < REMINDER_SCHEDULE.length ∧ lr + schedAt i ≤ now then now else lr) := by
  obtain ⟨hurl, hune, hlp, hchat, hc0, hnp, hentry⟩ := hmt
  obtain ⟨g, cg, ltp, mc, np, an, pl, pns, ec, bl, mi, em⟩ := s
  obtain ⟨cp, ts, civs⟩ := body
  simp only at hurl hlp hchat hnp hentry hcp
  subst hurl hlp hchat hnp hcp
  by_cases hfire : i < REMINDER_SCHEDULE.length ∧ lr + schedAt i ≤ now
  · refine ⟨⟨g, some url, some P, some chat, false, an, pl,
      insertA P ⟨tf, i + 1, TimeField.iso now⟩ pns, ec, bl, mi, em⟩, ?_, ?_⟩
    · simp only [if_pos hfire]
      simp [monitor_game_state, fetch_game_json, hune, hrne, hup, hentry, hc0,
        reminder_fire, hfire.1, hfire.2]
    · simp only [if_pos hfire]
      exact ⟨rfl, hune, rfl, rfl, hc0, rfl, lookupA_insertA_self ..⟩
  · refine ⟨⟨g, some url, some P, some chat, false, an, pl, pns, ec, bl, mi, em⟩,
      ?_, ?_⟩
    · simp only [if_neg hfire]
      by_cases hi : i < REMINDER_SCHEDULE.length
      · have hle : ¬ (lr + schedAt i ≤ now) := fun hb => hfire ⟨hi, hb⟩
        simp [monitor_game_state, fetch_game_json, hune, hrne, hup, hentry, hc0,
          reminder_fire, hi, hle]
      · simp [monitor_game_state, fetch_game_json, hune, hrne, hup, hentry, hc0,
          reminder_fire, hi]
    · simp only [if_neg hfire]
      exact ⟨rfl, hune, rfl, rfl, hc0, rfl, hentry⟩

/-- Shared: a run of unchanged-holder ticks refines the scheduler
recurrence `simSched`. -/
theorem runTicks_unchanged (times : List Nat) (url P raw : String) (chat : Int)
    (body : GameJson) (tf : TimeField) (i lr : Nat) (s : BotState)
    (hmt : MidTurn url P chat s tf i lr)
    (hcp : body.currentPlayer = some raw) (hrne : raw ≠ "") (hup : pyUpper raw = P) :
    ∃ s' evs,
      runTicks (times.map fun t => (t, HttpResponse.ok none body)) s =
        Except.ok (s', evs) ∧
      reminderIdxTimes evs = simSched times lr i := by
  induction times generalizing i lr s with
  | nil => exact ⟨s, [], rfl, rfl⟩
  | cons t ts ih =>
    obtain ⟨s1, hs1, hmt1⟩ :=
      monitor_unchanged_tick t url P raw chat body tf i lr s hmt hcp hrne hup
    by_cases hfire : i < REMINDER_SCHEDULE.length ∧ lr + schedAt i ≤ t
    · simp only [if_pos hfire] at hs1 hmt1
      obtain ⟨s2, evs2, hs2, hsim⟩ := ih (i + 1) t s1 hmt1
      refine ⟨s2, [Event.reminder chat P i t, Event.saved (save_state s1)] ++ evs2,
        ?_, ?_⟩
      · simp only [List.map_cons, runTicks, hs1, hs2]
      · simp [reminderIdxTimes, simSched, if_pos hfire, hsim,
          reminderIdxTimes] at hsim ⊢
        exact hsim
    · simp only [if_neg hfire] at hs1 hmt1
      obtain ⟨s2, evs2, hs2, hsim⟩ := ih i lr s1 hmt1
      refine ⟨s2, [] ++ evs2, ?_, ?_⟩
      · simp only [List.map_cons, runTicks, hs1, hs2]
      · simpa [simSched, if_neg hfire] using hsim

theorem simSched_fst (times : List Nat) (lr i : Nat) :
    (simSched times lr i).map Prod.fst =
      List.range' i (simSched times lr i).length := by
  induction times generalizing lr i with
  | nil => simp [simSched]
  | cons t ts ih =>
    by_cases h : i < REMINDER_SCHEDULE.length ∧ lr + schedAt i ≤ t
    · simp [simSched, if_pos h, List.range'_succ, ih]
    · simp [simSched, if_neg h, ih]

theorem simSched_length_le (times : List Nat) (lr i : Nat) :
    (simSched times lr i).length ≤ REMINDER_SCHEDULE.length - i := by
  induction times generalizing lr i with
  | nil => simp [simSched]
  | cons t ts ih =>
    by_cases h : i < REMINDER_SCHEDULE.length ∧ lr + schedAt i ≤ t
    · have := ih t (i + 1)
      simp only [simSched, if_pos h, List.length_cons]
      omega
    · simpa [simSched, if_neg h] using ih lr i

theorem simSched_cumulative (t0 : Nat) :
    simSched [t0 + 600, t0 + 2400, t0 + 6000] t0 0 =
      [(0, t0 + 600), (1, t0 + 2400), (2, t0 + 6000)] := by
  have e0 : schedAt 0 = 600 := rfl
  have e1 : schedAt 1 = 1800 := rfl
  have e2 : schedAt 2 = 3600 := rfl
  have eL : REMINDER_SCHEDULE.length = 3 := rfl
  simp only [simSched, e0, e1, e2, eL]
  rw [if_pos ⟨by omega, by omega⟩, if_pos ⟨by omega, by omega⟩,
    if_pos ⟨by omega, by omega⟩]

/-- C1 (amended): over any run of same-holder ticks, the reminder trace of
the full monitor equals the scheduler recurrence (fire index `i` at the
first tick at or after `lastRemindedAt + schedule[i]`, then restart the
delay from that dispatch); the fired indices are consecutive starting at
the entry's index, each exactly once and never beyond the schedule
length; and along ticks exactly at the due times the dispatch times are
the turn start plus the cumulative (not per-index) schedule sums
600, 600+1800, 600+1800+3600. -/
theorem reminders_fire_in_order_once (times : List Nat) (url P raw : String)
    (chat : Int) (body : GameJson) (tf : TimeField) (i lr : Nat) (s : BotState)
    (hmt : MidTurn url P chat s tf i lr)
    (hcp : body.currentPlayer = some raw) (hrne : raw ≠ "") (hup : pyUpper raw = P) :
    (∃ s' evs,
      runTicks (times.map fun t => (t, HttpResponse.ok none body)) s =
        Except.ok (s', evs) ∧
      reminderIdxTimes evs = simSched times lr i) ∧
    (simSched times lr i).map Prod.fst =
      List.range' i (simSched times lr i).length ∧
    (simSched times lr i).length ≤ REMINDER_SCHEDULE.length - i ∧
    ∀ t0 : Nat, simSched [t0 + 600, t0 + 2400, t0 + 6000] t0 0 =
      [(0, t0 + 600), (1, t0 + 2400), (2, t0 + 6000)] :=
  ⟨runTicks_unchanged times url P raw chat body tf i lr s hmt hcp hrne hup,
   simSched_fst times lr i, simSched_length_le times lr i, simSched_cumulative⟩

/-- A state one tick after first observing ROME at time 0. -/
def freshTurnState : BotState := midTurnState ⟨TimeField.iso 0, 0, TimeField.iso 0⟩

/-- C1 is FALSE as stated: from turn start 0, with ticks at 600, 1800 and
2400, reminder index 1 is dispatched at 2400 and not at
`turnStartedAt + schedule[1] = 1800`, although a tick happened exactly
then — delays restart from each dispatch instead of being offsets from
the turn start. -/
theorem reminder_times_cumulative_not_absolute :
    (∃ s' evs,
      runTicks ([600, 1800, 2400].map fun t => (t, HttpResponse.ok none romeBody))
        freshTurnState = Except.ok (s', evs) ∧
      reminderIdxTimes evs = [(0, 600), (1, 2400)]) ∧
    (0 : Nat) + schedAt 1 = 1800 ∧ (2400 : Nat) ≠ 1800 := by
  exact ⟨⟨_, _, rfl, rfl⟩, rfl, by decide⟩

theorem reminders_fire_in_order_once_witness :
    (∃ s' evs,
      runTicks ([600, 2400].map fun t => (t, HttpResponse.ok none romeBody))
        freshTurnState = Except.ok (s', evs) ∧
      reminderIdxTimes evs = simSched [600, 2400] 0 0) ∧
    (simSched [600, 2400] 0 0).map Prod.fst =
      List.range' 0 (simSched [600, 2400] 0 0).length ∧
    (simSched [600, 2400] 0 0).length ≤ REMINDER_SCHEDULE.length - 0 ∧
    ∀ t0 : Nat, simSched [t0 + 600, t0 + 2400, t0 + 6000] t0 0 =
      [(0, t0 + 600), (1, t0 + 2400), (2, t0 + 6000)] :=
  reminders_fire_in_order_once [600, 2400] "u" "ROME" "Rome" 7 romeBody
    (TimeField.iso 0) 0 0 freshTurnState
    ⟨rfl, by decide, rfl, rfl, by decide, rfl, rfl⟩ rfl (by decide) (by decide)

/-- Shared: one failing tick performs exactly one debouncer step on the
error-time map and touches nothing else. -/
theorem monitor_failing_tick (now : Nat) (resp : HttpResponse) (s : BotState)
    (url : String) (chat : Int) (last : Nat)
    (hresp : resp = HttpResponse.timeout ∨ resp = HttpResponse.clientError)
    (hurl : s.currentGameUrl = some url) (hune : url ≠ "")
    (hchat : s.mainChatId = some chat) (hc0 : chat ≠ 0)
    (hlast : (lookupA chat s.lastErrorTimeByChat).getD 0 = last) :
    ∃ em',
      monitor_game_state now resp s =
        Except.ok ({ s with lastErrorTimeByChat := em' },
          if last + ERROR_DEBOUNCE_SECONDS ≤ now then [Event.errorMsg chat now]
          else []) ∧
      (lookupA chat em').getD 0 =
        (if last + ERROR_DEBOUNCE_SECONDS ≤ now then now else last) := by
  have hf : ∃ e, ∀ cache u,
      fetch_game_json resp cache u = (Except.error e, cache) := by
    rcases hresp with h | h <;> subst h
    · exact ⟨FetchErr.timeoutE, fun _ _ => rfl⟩
    · exact ⟨FetchErr.clientE, fun _ _ => rfl⟩
  obtain ⟨e, hf⟩ := hf
  obtain ⟨g, cg, ltp, mc, np, an, pl, pns, ec, bl, mi, em⟩ := s
  simp only at hurl hchat hlast
  subst hurl hchat
  by_cases hdb : last + ERROR_DEBOUNCE_SECONDS ≤ now
  · refine ⟨insertA chat now em, ?_, ?_⟩
    · simp only [if_pos hdb]
      simp [monitor_game_state, hune, hf, hc0, send_debounced_error, hlast, hdb]
    · simp only [if_pos hdb, lookupA_insertA_self]
      rfl
  · refine ⟨em, ?_, ?_⟩
    · simp only [if_neg hdb]
      simp [monitor_game_state, hune, hf, hc0, send_debounced_error, hlast, hdb]
    · simp only [if_neg hdb]
      exact hlast

/-- Shared: a run of failing ticks refines the debouncer recurrence. -/
theorem runTicks_failing (times : List Nat) (resp : HttpResponse) (s : BotState)
    (url : String) (chat : Int) (last : Nat)
    (hresp : resp = HttpResponse.timeout ∨ resp = HttpResponse.clientError)
    (hurl : s.currentGameUrl = some url) (hune : url ≠ "")
    (hchat : s.mainChatId = some chat) (hc0 : chat ≠ 0)
    (hlast : (lookupA chat s.lastErrorTimeByChat).getD 0 = last) :
    ∃ s' evs,
      runTicks (times.map fun t => (t, resp)) s = Except.ok (s', evs) ∧
      errorTimes evs = simDebounce times last := by
  induction times generalizing s last with
  | nil => exact ⟨s, [], rfl, rfl⟩
  | cons t ts ih =>
    obtain ⟨em', hm, hem⟩ :=
      monitor_failing_tick t resp s url chat last hresp hurl hune hchat hc0 hlast
    by_cases hdb : last + ERROR_DEBOUNCE_SECONDS ≤ t
    · simp only [if_pos hdb] at hm hem
      obtain ⟨s2, evs2, h2, hsim⟩ :=
        ih { s with lastErrorTimeByChat := em' } t hurl hchat hem
      refine ⟨s2, [Event.errorMsg chat t] ++ evs2, ?_, ?_⟩
      · simp only [List.map_cons, runTicks, hm, h2]
      · simp [errorTimes, simDebounce, if_pos hdb] at hsim ⊢
        exact hsim
    · simp only [if_neg hdb] at hm hem
      obtain ⟨s2, evs2, h2, hsim⟩ :=
        ih { s with lastErrorTimeByChat := em' } last hurl hchat hem
      refine ⟨s2, [] ++ evs2, ?_, ?_⟩
      · simp only [List.map_cons, runTicks, hm, h2]
      · simpa [simDebounce, if_neg hdb] using hsim

theorem simDebounce_ge (times : List Nat) (last : Nat) :
    ∀ x ∈ simDebounce times last, last + ERROR_DEBOUNCE_SECONDS ≤ x := by
  induction times generalizing last with
  | nil => simp [simDebounce]
  | cons t ts ih =>
    intro x hx
    by_cases h : last + ERROR_DEBOUNCE_SECONDS ≤ t
    · simp only [simDebounce, if_pos h, List.mem_cons] at hx
      rcases hx with rfl | hx
      · exact h
      · have := ih t x hx
        omega
    · simp only [simDebounce, if_neg h] at hx
      exact ih last x hx

theorem simDebounce_pairwise (times : List Nat) (last : Nat) :
    List.Pairwise (fun a b => a + ERROR_DEBOUNCE_SECONDS ≤ b)
      (simDebounce times last) := by
  induction times generalizing last with
  | nil => simp [simDebounce]
  | cons t ts ih =>
    by_cases h : last + ERROR_DEBOUNCE_SECONDS ≤ t
    · simp only [simDebounce, if_pos h, List.pairwise_cons]
      exact ⟨fun x hx => simDebounce_ge ts t x hx, ih t⟩
    · simpa [simDebounce, if_neg h] using ih last

/-- C7: over any run of consecutive failing ticks, the error-message trace
equals the debouncer recurrence — a message is sent exactly at the ticks
where at least `ERROR_DEBOUNCE_SECONDS = 300` seconds have passed since
the previous send to this chat, so at most one per window and exactly one
more once the window elapses; any two sent messages are at least 300 s
apart; the trace is the same whatever the pause flag; and the debounce
map is volatile — the snapshot ignores it and a load leaves it at the
fresh-start empty value. -/
theorem error_debounce_policy (times : List Nat) (resp : HttpResponse)
    (s : BotState) (url : String) (chat : Int) (last : Nat) (p : SavedPayload)
    (hresp : resp = HttpResponse.timeout ∨ resp = HttpResponse.clientError)
    (hurl : s.currentGameUrl = some url) (hune : url ≠ "")
    (hchat : s.mainChatId = some chat) (hc0 : chat ≠ 0)
    (hlast : (lookupA chat s.lastErrorTimeByChat).getD 0 = last) :
    (∃ s' evs, runTicks (times.map fun t => (t, resp)) s = Except.ok (s', evs) ∧
      errorTimes evs = simDebounce times last) ∧
    List.Pairwise (fun a b => a + ERROR_DEBOUNCE_SECONDS ≤ b)
      (simDebounce times last) ∧
    (∀ b, ∃ s' evs,
      runTicks (times.map fun t => (t, resp)) { s with notifyPaused := b } =
        Except.ok (s', evs) ∧
      errorTimes evs = simDebounce times last) ∧
    (∀ em, save_state { s with lastErrorTimeByChat := em } = save_state s) ∧
    (load_state p initState).lastErrorTimeByChat = [] :=
  ⟨runTicks_failing times resp s url chat last hresp hurl hune hchat hc0 hlast,
   simDebounce_pairwise times last,
   fun b => runTicks_failing times resp { s with notifyPaused := b } url chat last
     hresp hurl hune hchat hc0 hlast,
   fun _ => rfl, rfl⟩

theorem error_debounce_policy_witness :
    (∃ s' evs,
      runTicks ([100, 250, 420, 800].map fun t => (t, HttpResponse.timeout))
        baseMonState = Except.ok (s', evs) ∧
      errorTimes evs = simDebounce [100, 250, 420, 800] 0) ∧
    List.Pairwise (fun a b => a + ERROR_DEBOUNCE_SECONDS ≤ b)
      (simDebounce [100, 250, 420, 800] 0) ∧
    (∀ b, ∃ s' evs,
      runTicks ([100, 250, 420, 800].map fun t => (t, HttpResponse.timeout))
        { baseMonState with notifyPaused := b } = Except.ok (s', evs) ∧
      errorTimes evs = simDebounce [100, 250, 420, 800] 0) ∧
    (∀ em, save_state { baseMonState with lastErrorTimeByChat := em } =
      save_state baseMonState) ∧
    (load_state (save_state initState) initState).lastErrorTimeByChat = [] :=
  error_debounce_policy [100, 250, 420, 800] HttpResponse.timeout baseMonState
    "u" 7 0 (save_state initState) (Or.inl rfl) rfl (by decide) rfl (by decide) rfl

end UncivNotifier
